import Mathlib

/-!
Shallow embedding of the datamodel renderer's field/attribute engine
(`datamodel-renderer/src/datamodel/model/field.rs` and
`datamodel-renderer/src/datamodel/composite_type.rs`) together with the
value primitives and attribute payload builders those files use, and
proofs of the specified rendering and adapter properties.

Rust strings are Lean `String`s, `Option<T>` is `Option`, `Vec<T>` is
`List`, the `HashMap<&str, IndexFieldOptions>` side-table is an
association list read through `List.lookup`, and the `fmt::Display`
implementations become pure `render` functions producing `String`s.
-/

namespace Renderer

/-- Concatenation of a list of strings, in order (sequential `write!` calls). -/
def concatAll : List String → String
  | [] => ""
  | s :: rest => s ++ concatAll rest

/-- Comma-style separated concatenation: `sepAll sep [a, b, c] = a ++ sep ++ b ++ sep ++ c`. -/
def sepAll (sep : String) : List String → String
  | [] => ""
  | [s] => s
  | s :: rest => s ++ sep ++ sepAll sep rest

/-- Modelled from the spec: string escaping for quoted text values — wrap in
`"`, escape embedded `"` and backslash (the `Text` value primitive, whose
source file is not part of the excerpt). -/
def escChar (c : Char) : String :=
  if c = '"' then "\\\""
  else if c = '\\' then "\\\\"
  else String.singleton c

/-- Modelled from the spec: a quoted text value renders wrapped in `"` with
embedded `"` and backslash escaped. -/
def Text.render (s : String) : String :=
  "\"" ++ concatAll (s.data.map escChar) ++ "\""

/-- Modelled from the spec: `Documentation` is an append-only sequence of text
lines; each line renders as `/// <text>` on its own line. -/
structure Documentation where
  lines : List String
deriving Repr, DecidableEq

/-- A fresh documentation value holding a single line. -/
def Documentation.new (s : String) : Documentation := ⟨[s]⟩

/-- Appending one more documentation line (the `push` used by
`ModelField::documentation`). -/
def Documentation.push (d : Documentation) (s : String) : Documentation :=
  ⟨d.lines ++ [s]⟩

/-- Render every documentation line as `/// <text>` followed by a newline. -/
def Documentation.render (d : Documentation) : String :=
  concatAll (d.lines.map (fun l => "/// " ++ l ++ "\n"))

/-- Modelled from the spec: arity of a field type — required, optional or list. -/
inductive Arity
  | required
  | optional
  | list
deriving Repr, DecidableEq

/-- Modelled from the spec: `FieldType` is a base type name, an arity and an
unsupported flag (its source file is not part of the excerpt; the model
follows spec §4.1). -/
structure FieldType where
  name : String
  arity : Arity
  unsupported : Bool
deriving Repr, DecidableEq

/-- A required field type with the given base name. -/
def FieldType.required (name : String) : FieldType :=
  ⟨name, Arity.required, false⟩

/-- Overwrite the arity with optional (last write wins per spec §4.1). -/
def FieldType.into_optional (t : FieldType) : FieldType :=
  { t with arity := Arity.optional }

/-- Overwrite the arity with list (last write wins per spec §4.1). -/
def FieldType.into_array (t : FieldType) : FieldType :=
  { t with arity := Arity.list }

/-- Set the unsupported flag. -/
def FieldType.into_unsupported (t : FieldType) : FieldType :=
  { t with unsupported := true }

/-- The arity suffix: empty, `?` or `[]`. -/
def Arity.suffix : Arity → String
  | Arity.required => ""
  | Arity.optional => "?"
  | Arity.list => "[]"

/-- The rendered base of a field type: the plain name, or the name quoted
inside the fixed `Unsupported("<type>")` literal call form. -/
def FieldType.renderBase (t : FieldType) : String :=
  if t.unsupported then "Unsupported(" ++ Text.render t.name ++ ")" else t.name

/-- Render = base (possibly `Unsupported`-wrapped) then the arity suffix; the
suffix is appended after the wrap, never inside it (spec §4.1). -/
def FieldType.render (t : FieldType) : String :=
  t.renderBase ++ t.arity.suffix

/-- Modelled from the spec: one argument of an attribute's function — a raw
constant, a quoted text value, or a named `key: value` argument (spec §4.2). -/
inductive FnArg
  | constant (s : String)
  | text (s : String)
  | named (key : String) (value : String)
deriving Repr, DecidableEq

/-- Render a single function argument. -/
def FnArg.render : FnArg → String
  | FnArg.constant s => s
  | FnArg.text s => Text.render s
  | FnArg.named k v => k ++ ": " ++ v

/-- Modelled from the spec: a function-shaped attribute payload — a name plus
an ordered argument list (the `Function` value primitive). -/
structure Func where
  name : String
  args : List FnArg
deriving Repr, DecidableEq

/-- A fresh argument-less function. -/
def Func.new (name : String) : Func := ⟨name, []⟩

/-- Push one more argument at the end of the argument list. -/
def Func.push_param (f : Func) (a : FnArg) : Func :=
  { f with args := f.args ++ [a] }

/-- An argument-less function renders as a bare name; otherwise a
parenthesized comma-joined argument list (spec §4.2). -/
def Func.render (f : Func) : String :=
  match f.args with
  | [] => f.name
  | args => f.name ++ "(" ++ sepAll ", " (args.map FnArg.render) ++ ")"

/-- Modelled from the spec: a field attribute `@name(args)`, with an optional
namespace `@prefix.name(args)` (spec §4.2, §6). -/
structure FieldAttribute where
  pfx : Option String
  function : Func
deriving Repr, DecidableEq

/-- A fresh attribute with no namespace. -/
def FieldAttribute.new (f : Func) : FieldAttribute := ⟨none, f⟩

/-- Push one more argument onto the attribute's function. -/
def FieldAttribute.push_param (a : FieldAttribute) (arg : FnArg) : FieldAttribute :=
  { a with function := a.function.push_param arg }

/-- Render as `@` then the optional `prefix.` namespace then the function. -/
def FieldAttribute.render (a : FieldAttribute) : String :=
  "@" ++ (match a.pfx with | some p => p ++ "." | none => "") ++ a.function.render

/-- Modelled from the spec: the default-value attribute payload; it renders as
`@default(<value expression>)` (the `DefaultValue` source file is not part of
the excerpt; only its rendered expression matters to the claims). -/
structure DefaultValue where
  value : String
deriving Repr, DecidableEq

/-- Render the default attribute. -/
def DefaultValue.render (d : DefaultValue) : String :=
  "@default(" ++ d.value ++ ")"

/-- Translation from the legacy default value (modelled by its rendered
expression text) into the renderer's default value. -/
def DefaultValue.from_dml (v : String) : DefaultValue := ⟨v⟩

/-- Modelled from the spec: id/unique options — optional sort order, length,
clustered flag, map name (spec §3). -/
structure IndexFieldOptions where
  map : Option String
  sort_order : Option String
  length : Option Nat
  clustered : Option Bool
deriving Repr, DecidableEq

/-- Modelled from the spec: the identity-attribute definition carries the same
optional options as unique and renders as `@id` or `@id(...)` (its source
file is not part of the excerpt). -/
structure IdFieldDefinition where
  sort_order : Option String
  length : Option Nat
  clustered : Option Bool
  map : Option String
deriving Repr, DecidableEq

/-- Render the id attribute: bare `@id` when no options are present. -/
def IdFieldDefinition.render (d : IdFieldDefinition) : String :=
  (FieldAttribute.new
    ⟨"id",
      (d.sort_order.toList.map (fun s => FnArg.named "sort" s)) ++
      (d.length.toList.map (fun n => FnArg.named "length" (toString n))) ++
      (d.clustered.toList.map (fun c => FnArg.named "clustered" (toString c))) ++
      (d.map.toList.map (fun m => FnArg.named "map" (Text.render m)))⟩).render

/-- Modelled from the spec: a relation descriptor — optional name, ordered
local-field list, ordered referenced-field list, optional onDelete/onUpdate
actions, optional foreign-key map name (spec §3). -/
structure Relation where
  name : Option String
  fields : List String
  references : List String
  on_delete : Option String
  on_update : Option String
  map : Option String
deriving Repr, DecidableEq

/-- A fresh, fully empty relation descriptor. -/
def Relation.new : Relation := ⟨none, [], [], none, none, none⟩

/-- Set the relation name. -/
def Relation.setName (r : Relation) (n : String) : Relation := { r with name := some n }

/-- Set the local-field list. -/
def Relation.setFields (r : Relation) (fs : List String) : Relation := { r with fields := fs }

/-- Set the referenced-field list. -/
def Relation.setReferences (r : Relation) (fs : List String) : Relation :=
  { r with references := fs }

/-- Set the onDelete action. -/
def Relation.setOnDelete (r : Relation) (a : String) : Relation := { r with on_delete := some a }

/-- Set the onUpdate action. -/
def Relation.setOnUpdate (r : Relation) (a : String) : Relation := { r with on_update := some a }

/-- Set the foreign-key map name. -/
def Relation.setMap (r : Relation) (m : String) : Relation := { r with map := some m }

/-- Render the relation attribute `@relation(...)`, bare when empty. -/
def Relation.render (r : Relation) : String :=
  (FieldAttribute.new
    ⟨"relation",
      (r.name.toList.map FnArg.text) ++
      (if r.fields.isEmpty then []
       else [FnArg.named "fields" ("[" ++ sepAll ", " r.fields ++ "]")]) ++
      (if r.references.isEmpty then []
       else [FnArg.named "references" ("[" ++ sepAll ", " r.references ++ "]")]) ++
      (r.on_delete.toList.map (fun a => FnArg.named "onDelete" a)) ++
      (r.on_update.toList.map (fun a => FnArg.named "onUpdate" a)) ++
      (r.map.toList.map (fun m => FnArg.named "map" (Text.render m)))⟩).render

/-- A field in a model block (`struct ModelField` of `model/field.rs`): name,
commented-out flag, type, optional documentation, and the eight optional
attribute slots. -/
structure ModelField where
  name : String
  commented_out : Bool
  type : FieldType
  documentation : Option Documentation
  updated_at : Option FieldAttribute
  unique : Option FieldAttribute
  id : Option IdFieldDefinition
  default : Option DefaultValue
  map : Option FieldAttribute
  relation : Option Relation
  native_type : Option FieldAttribute
  ignore : Option FieldAttribute
deriving Repr, DecidableEq

/-- Embeds `ModelField::new`: a required field with every optional slot empty. -/
def ModelField.new (name : String) (type_name : String) : ModelField :=
  { name := name
    commented_out := false
    type := FieldType.required type_name
    map := none
    documentation := none
    updated_at := none
    unique := none
    id := none
    default := none
    relation := none
    native_type := none
    ignore := none }

/-- Embeds `ModelField::optional`. -/
def ModelField.optional (f : ModelField) : ModelField :=
  { f with type := f.type.into_optional }

/-- Embeds `ModelField::array`. -/
def ModelField.array (f : ModelField) : ModelField :=
  { f with type := f.type.into_array }

/-- Embeds `ModelField::unsupported`. -/
def ModelField.unsupported (f : ModelField) : ModelField :=
  { f with type := f.type.into_unsupported }

/-- The attribute stored by `ModelField::map`: `@map("<value>")`. -/
def mapAttribute (value : String) : FieldAttribute :=
  FieldAttribute.new ((Func.new "map").push_param (FnArg.text value))

/-- Embeds `ModelField::map`: overwrite the rename slot. -/
def ModelField.setMap (f : ModelField) (value : String) : ModelField :=
  { f with map := some (mapAttribute value) }

/-- Embeds `ModelField::documentation`: push onto existing documentation, or create
it with the single given line. -/
def ModelField.addDocumentation (f : ModelField) (documentation : String) : ModelField :=
  match f.documentation with
  | some docs => { f with documentation := some (docs.push documentation) }
  | none => { f with documentation := some (Documentation.new documentation) }

/-- Embeds `ModelField::default`: overwrite the default slot. -/
def ModelField.setDefault (f : ModelField) (value : DefaultValue) : ModelField :=
  { f with default := some value }

/-- The attribute stored by `ModelField::native_type`: a function named after
the native type, its params pushed as raw constants, under the datasource
namespace. -/
def nativeTypeAttribute (pfx : String) (type : String) (params : List String) : FieldAttribute :=
  { pfx := some pfx, function := ⟨type, params.map FnArg.constant⟩ }

/-- Embeds `ModelField::native_type`: overwrite the native-type slot. -/
def ModelField.setNativeType (f : ModelField) (pfx : String) (type : String)
    (params : List String) : ModelField :=
  { f with native_type := some (nativeTypeAttribute pfx type params) }

/-- The attribute stored by `ModelField::updated_at`: a bare `@updatedAt`. -/
def updatedAtAttribute : FieldAttribute := FieldAttribute.new (Func.new "updatedAt")

/-- Embeds `ModelField::updated_at`: overwrite the auto-update-timestamp slot. -/
def ModelField.setUpdatedAt (f : ModelField) : ModelField :=
  { f with updated_at := some updatedAtAttribute }

/-- The attribute built by `ModelField::unique`: `@unique(...)` with its
options pushed in the fixed order map, sort, length, clustered, each present
iff supplied. -/
def uniqueAttribute (options : IndexFieldOptions) : FieldAttribute :=
  FieldAttribute.new
    ⟨"unique",
      (options.map.toList.map (fun m => FnArg.named "map" (Text.render m))) ++
      (options.sort_order.toList.map (fun s => FnArg.named "sort" s)) ++
      (options.length.toList.map (fun n => FnArg.named "length" (toString n))) ++
      (options.clustered.toList.map (fun c => FnArg.named "clustered" (toString c)))⟩

/-- Embeds `ModelField::unique`: overwrite the unique slot. -/
def ModelField.setUnique (f : ModelField) (options : IndexFieldOptions) : ModelField :=
  { f with unique := some (uniqueAttribute options) }

/-- Embeds `ModelField::id`: overwrite the id slot. -/
def ModelField.setId (f : ModelField) (definition : IdFieldDefinition) : ModelField :=
  { f with id := some definition }

/-- Embeds `ModelField::relation`: overwrite the relation slot. -/
def ModelField.setRelation (f : ModelField) (relation : Relation) : ModelField :=
  { f with relation := some relation }

/-- The attribute stored by `ModelField::ignore`: a bare `@ignore`. -/
def ignoreAttribute : FieldAttribute := FieldAttribute.new (Func.new "ignore")

/-- Embeds `ModelField::ignore`: overwrite the ignore slot. -/
def ModelField.setIgnore (f : ModelField) : ModelField :=
  { f with ignore := some ignoreAttribute }

/-- Embeds `ModelField::commented_out`: set the commented-out flag. -/
def ModelField.setCommentedOut (f : ModelField) : ModelField :=
  { f with commented_out := true }

/-- The documentation part of a model field's render (empty when absent). -/
def ModelField.docText (f : ModelField) : String :=
  match f.documentation with
  | some docs => docs.render
  | none => ""

/-- The populated attributes of a field, rendered, in the fixed emission
order of `impl fmt::Display for ModelField`: updated_at, unique, id,
default, map, relation, native_type, ignore; absent slots contribute
nothing. -/
def ModelField.attrStrings (f : ModelField) : List String :=
  (f.updated_at.map FieldAttribute.render).toList ++
  (f.unique.map FieldAttribute.render).toList ++
  (f.id.map IdFieldDefinition.render).toList ++
  (f.default.map DefaultValue.render).toList ++
  (f.map.map FieldAttribute.render).toList ++
  (f.relation.map Relation.render).toList ++
  (f.native_type.map FieldAttribute.render).toList ++
  (f.ignore.map FieldAttribute.render).toList

/-- The declaration text after the optional comment marker: `name type`, then
each populated attribute preceded by exactly one space. -/
def ModelField.declText (f : ModelField) : String :=
  f.name ++ " " ++ f.type.render ++ concatAll (f.attrStrings.map (fun a => " " ++ a))

/-- Embeds `impl fmt::Display for ModelField`: documentation lines, then the `// `
marker when commented out, then the declaration text. -/
def ModelField.render (f : ModelField) : String :=
  f.docText ++ (if f.commented_out then "// " else "") ++ f.declText

/-! ### The legacy (dml) data model consumed by the adapter

The dml structures themselves live outside the excerpt; they are modelled
from the spec (§4.5): a closed tagged union over scalar / relation /
composite kinds, each carrying base type reference, arity, optional
native-type descriptor, optional default-value expression, optional
documentation, ignored and commented-out flags, optional rename, and
kind-specific extras. -/

/-- Modelled from the spec: the legacy arity. -/
inductive FieldArity
  | required
  | optional
  | list
deriving Repr, DecidableEq

/-- Modelled from the spec: a native-type descriptor — type name plus ordered
string arguments (`nt.name()`, `nt.args()`). -/
structure NativeTypeInstance where
  name : String
  args : List String
deriving Repr, DecidableEq

/-- Modelled from the spec: the legacy relation extras — relation name,
local/foreign field-reference lists, onDelete/onUpdate actions, foreign-key
map name, and the referenced model. -/
structure RelationInfo where
  name : String
  referenced_model : String
  fields : List String
  references : List String
  on_delete : Option String
  on_update : Option String
  fk_name : Option String
deriving Repr, DecidableEq

/-- Modelled from the spec: the legacy scalar field's type, as matched by the
adapter — enum, relation, unsupported, scalar (with optional native type) or
composite type. -/
inductive DmlFieldType
  | enum (name : String)
  | relation (info : RelationInfo)
  | unsupported (name : String)
  | scalar (name : String) (native_type : Option NativeTypeInstance)
  | compositeType (name : String)
deriving Repr, DecidableEq

/-- Embeds `field_type.is_unsupported()` of the legacy field type. -/
def DmlFieldType.is_unsupported : DmlFieldType → Bool
  | DmlFieldType.unsupported _ => true
  | _ => false

/-- Modelled from the spec: a legacy scalar field record. -/
structure ScalarField where
  name : String
  field_type : DmlFieldType
  arity : FieldArity
  documentation : Option String
  default_value : Option String
  is_updated_at : Bool
  is_ignored : Bool
  is_commented_out : Bool
  database_name : Option String
deriving Repr, DecidableEq

/-- Modelled from the spec: a legacy relation field record; per spec §4.5
every kind carries the optional native-type descriptor, default-value
expression, documentation, ignored/commented-out flags and optional rename,
plus the relation extras. -/
structure RelationField where
  name : String
  arity : FieldArity
  documentation : Option String
  is_ignored : Bool
  relation_info : RelationInfo
  native_type : Option NativeTypeInstance
  default_value : Option String
  database_name : Option String
  is_commented_out : Bool
deriving Repr, DecidableEq

/-- Modelled from the spec: a legacy composite field record; per spec §4.5
every kind carries the optional native-type descriptor as well. -/
structure CompositeField where
  name : String
  composite_type : String
  arity : FieldArity
  documentation : Option String
  database_name : Option String
  is_commented_out : Bool
  is_ignored : Bool
  default_value : Option String
  native_type : Option NativeTypeInstance
deriving Repr, DecidableEq

/-- Modelled from the spec: the closed tagged union of legacy field kinds. -/
inductive DmlField
  | scalarField (sf : ScalarField)
  | relationField (rf : RelationField)
  | compositeField (cf : CompositeField)
deriving Repr, DecidableEq

/-- Modelled from the spec: the immutable datasource descriptor; the adapter
only reads its name (the native-type namespace). -/
structure Datasource where
  name : String
deriving Repr, DecidableEq

/-- Modelled from the spec: the legacy model record; the adapter receives it
but never reads it (`_dml_model`). -/
structure DmlModel where
  name : String
deriving Repr, DecidableEq

/-- One `if let Some(x) = o { state = set(x, state) }` step of the adapter's
sequential mutation, made explicit as state passing. -/
def optStep {σ α : Type} (o : Option α) (set : α → σ → σ) (st : σ) : σ :=
  match o with
  | some x => set x st
  | none => st

/-- One `if b { state = set(state) }` step of the adapter's sequential
mutation, made explicit as state passing. -/
def boolStep {σ : Type} (b : Bool) (set : σ → σ) (st : σ) : σ :=
  if b then set st else st

/-- Embeds `ModelField::from_dml`: normalize one legacy field record (plus the
uniques side-table and the optional id definition) into a model field,
mirroring the Rust control flow branch by branch; each conditional setter
call is one `optStep`/`boolStep`. -/
def ModelField.from_dml (datasource : Datasource) (_dml_model : DmlModel)
    (dml_field : DmlField) (uniques : List (String × IndexFieldOptions))
    (id : Option IdFieldDefinition) : ModelField :=
  match dml_field with
  | DmlField.scalarField sf =>
    let typeAndNative : String × Option (String × List String) :=
      match sf.field_type with
      | DmlFieldType.enum ct => (ct, none)
      | DmlFieldType.relation info => (info.referenced_model, none)
      | DmlFieldType.unsupported s => (s, none)
      | DmlFieldType.scalar st nt => (st, nt.map (fun n => (n.name, n.args)))
      | DmlFieldType.compositeType ct => (ct, none)
    let field := ModelField.new sf.name typeAndNative.1
    let field :=
      match sf.arity with
      | FieldArity.optional => field.optional
      | FieldArity.list => field.array
      | _ => field
    let field := boolStep sf.field_type.is_unsupported ModelField.unsupported field
    let field := optStep sf.documentation (fun docs f => f.addDocumentation docs) field
    let field := optStep sf.default_value (fun dv f => f.setDefault (DefaultValue.from_dml dv)) field
    let field := optStep typeAndNative.2 (fun p f => f.setNativeType datasource.name p.1 p.2) field
    let field := boolStep sf.is_updated_at ModelField.setUpdatedAt field
    let field := optStep (uniques.lookup sf.name) (fun unique f => f.setUnique unique) field
    let field := boolStep sf.is_ignored ModelField.setIgnore field
    let field := boolStep sf.is_commented_out ModelField.setCommentedOut field
    let field := optStep sf.database_name (fun map f => f.setMap map) field
    let field := optStep id (fun idDef f => f.setId idDef) field
    field
  | DmlField.relationField rf =>
    let field := ModelField.new rf.name rf.relation_info.referenced_model
    let field :=
      match rf.arity with
      | FieldArity.optional => field.optional
      | FieldArity.list => field.array
      | FieldArity.required => field
    let field := optStep rf.documentation (fun docs f => f.addDocumentation docs) field
    let field := boolStep rf.is_ignored ModelField.setIgnore field
    let dml_info := rf.relation_info
    let relation_name := dml_info.name
    if !relation_name.isEmpty || (!dml_info.fields.isEmpty || !dml_info.references.isEmpty) then
      let relation := Relation.new
      let relation :=
        if !relation_name.isEmpty then relation.setName relation_name else relation
      let relation := relation.setFields dml_info.fields
      let relation := relation.setReferences dml_info.references
      let relation := optStep dml_info.on_delete (fun action r => r.setOnDelete action) relation
      let relation := optStep dml_info.on_update (fun action r => r.setOnUpdate action) relation
      let relation := optStep dml_info.fk_name (fun map r => r.setMap map) relation
      field.setRelation relation
    else
      field
  | DmlField.compositeField cf =>
    let field := ModelField.new cf.name cf.composite_type
    let field :=
      match cf.arity with
      | FieldArity.required => field
      | FieldArity.optional => field.optional
      | FieldArity.list => field.array
    let field := optStep cf.documentation (fun docs f => f.addDocumentation docs) field
    let field := optStep cf.database_name (fun map f => f.setMap map) field
    let field := boolStep cf.is_commented_out ModelField.setCommentedOut field
    let field := boolStep cf.is_ignored ModelField.setIgnore field
    let field := optStep cf.default_value (fun dv f => f.setDefault (DefaultValue.from_dml dv)) field
    field

/-! ### Composite-type fields and type blocks -/

/-- Modelled from the spec: the composite-type variant of a field declaration
(`composite_type/field.rs` is not part of the excerpt): it omits the
relation/id/unique/updatedAt slots, keeping name, type, documentation,
commented-out flag and the default, rename, native-type and ignore slots. -/
structure CompositeTypeField where
  name : String
  commented_out : Bool
  type : FieldType
  documentation : Option Documentation
  default : Option DefaultValue
  map : Option FieldAttribute
  native_type : Option FieldAttribute
  ignore : Option FieldAttribute
deriving Repr, DecidableEq

/-- Embeds `CompositeTypeField::new`: a required field with every optional slot empty. -/
def CompositeTypeField.new (name : String) (type_name : String) : CompositeTypeField :=
  { name := name
    commented_out := false
    type := FieldType.required type_name
    documentation := none
    default := none
    map := none
    native_type := none
    ignore := none }

/-- Mark the composite-type field optional. -/
def CompositeTypeField.optional (f : CompositeTypeField) : CompositeTypeField :=
  { f with type := f.type.into_optional }

/-- Mark the composite-type field as an array. -/
def CompositeTypeField.array (f : CompositeTypeField) : CompositeTypeField :=
  { f with type := f.type.into_array }

/-- Mark the composite-type field unsupported. -/
def CompositeTypeField.unsupported (f : CompositeTypeField) : CompositeTypeField :=
  { f with type := f.type.into_unsupported }

/-- Overwrite the rename slot with `@map("<value>")`. -/
def CompositeTypeField.setMap (f : CompositeTypeField) (value : String) : CompositeTypeField :=
  { f with map := some (mapAttribute value) }

/-- Modelled from the spec: a later documentation call appends rather than
replaces (spec §3, `Documentation`). -/
def CompositeTypeField.addDocumentation (f : CompositeTypeField)
    (documentation : String) : CompositeTypeField :=
  match f.documentation with
  | some docs => { f with documentation := some (docs.push documentation) }
  | none => { f with documentation := some (Documentation.new documentation) }

/-- Overwrite the default slot. -/
def CompositeTypeField.setDefault (f : CompositeTypeField) (value : DefaultValue) :
    CompositeTypeField :=
  { f with default := some value }

/-- Overwrite the native-type slot. -/
def CompositeTypeField.setNativeType (f : CompositeTypeField) (pfx : String)
    (type : String) (params : List String) : CompositeTypeField :=
  { f with native_type := some (nativeTypeAttribute pfx type params) }

/-- Overwrite the ignore slot with a bare `@ignore`. -/
def CompositeTypeField.setIgnore (f : CompositeTypeField) : CompositeTypeField :=
  { f with ignore := some ignoreAttribute }

/-- Set the commented-out flag. -/
def CompositeTypeField.setCommentedOut (f : CompositeTypeField) : CompositeTypeField :=
  { f with commented_out := true }

/-- The documentation part of a composite-type field's render. -/
def CompositeTypeField.docText (f : CompositeTypeField) : String :=
  match f.documentation with
  | some docs => docs.render
  | none => ""

/-- The populated attributes in the canonical order restricted to the
composite variant's slots: default, map, native type, ignore. -/
def CompositeTypeField.attrStrings (f : CompositeTypeField) : List String :=
  (f.default.map DefaultValue.render).toList ++
  (f.map.map FieldAttribute.render).toList ++
  (f.native_type.map FieldAttribute.render).toList ++
  (f.ignore.map FieldAttribute.render).toList

/-- The declaration text of a composite-type field. -/
def CompositeTypeField.declText (f : CompositeTypeField) : String :=
  f.name ++ " " ++ f.type.render ++ concatAll (f.attrStrings.map (fun a => " " ++ a))

/-- Render of a composite-type field: documentation lines, the `// ` marker
when commented out, then the declaration. -/
def CompositeTypeField.render (f : CompositeTypeField) : String :=
  f.docText ++ (if f.commented_out then "// " else "") ++ f.declText

/-- A type block in a PSL file (`struct CompositeType` of
`composite_type.rs`): name, optional documentation, ordered fields. -/
structure CompositeType where
  name : String
  documentation : Option Documentation
  fields : List CompositeTypeField
deriving Repr, DecidableEq

/-- Embeds `CompositeType::new`: a block with no documentation and no fields (not
valid schema until at least one field is added, but constructible). -/
def CompositeType.new (name : String) : CompositeType :=
  { name := name, documentation := none, fields := [] }

/-- Embeds `CompositeType::documentation`: overwrite the block documentation. -/
def CompositeType.setDocumentation (ct : CompositeType) (documentation : String) :
    CompositeType :=
  { ct with documentation := some (Documentation.new documentation) }

/-- Embeds `CompositeType::push_field`: append one field at the end. -/
def CompositeType.push_field (ct : CompositeType) (field : CompositeTypeField) :
    CompositeType :=
  { ct with fields := ct.fields ++ [field] }

/-- Push a whole list of fields, left to right. -/
def CompositeType.pushAll (ct : CompositeType) (fs : List CompositeTypeField) :
    CompositeType :=
  fs.foldl CompositeType.push_field ct

/-- The documentation part of a block's render. -/
def CompositeType.docText (ct : CompositeType) : String :=
  match ct.documentation with
  | some docs => docs.render
  | none => ""

/-- The field lines of a block: each field's render followed by a newline
(`writeln!`), in stored order. -/
def renderFields : List CompositeTypeField → String
  | [] => ""
  | f :: rest => f.render ++ "\n" ++ renderFields rest

/-- Embeds `impl fmt::Display for CompositeType`: documentation, the
`type <Name> {` header line, the field lines, then the closing `}` with a
trailing newline. -/
def CompositeType.render (ct : CompositeType) : String :=
  ct.docText ++ ("type " ++ ct.name ++ " \x7b\n") ++ renderFields ct.fields ++ "\x7d\n"

/-! ### Characterization of the adapter, branch by branch -/

/-- The base type name the scalar branch picks out of the legacy field type. -/
def DmlFieldType.baseName : DmlFieldType → String
  | DmlFieldType.enum ct => ct
  | DmlFieldType.relation info => info.referenced_model
  | DmlFieldType.unsupported s => s
  | DmlFieldType.scalar st _ => st
  | DmlFieldType.compositeType ct => ct

/-- The native-type payload the scalar branch picks out of the legacy field
type. -/
def DmlFieldType.nativePayload : DmlFieldType → Option (String × List String)
  | DmlFieldType.scalar _ nt => nt.map (fun n => (n.name, n.args))
  | _ => none

/-- Translation of the legacy arity into the renderer's arity. -/
def FieldArity.toArity : FieldArity → Arity
  | FieldArity.required => Arity.required
  | FieldArity.optional => Arity.optional
  | FieldArity.list => Arity.list

/-- The relation descriptor the adapter builds out of legacy relation info
when it decides to attach one. -/
def relationFromInfo (info : RelationInfo) : Relation :=
  { name := if info.name.isEmpty then none else some info.name
    fields := info.fields
    references := info.references
    on_delete := info.on_delete
    on_update := info.on_update
    map := info.fk_name }

/-! ### Attribute setter calls, for order-independence statements -/

/-- One call to one of the eight optional attribute setters of a model
field, together with its argument. -/
inductive AttrCall
  | updatedAt
  | unique (options : IndexFieldOptions)
  | id (definition : IdFieldDefinition)
  | default (value : DefaultValue)
  | map (value : String)
  | relation (relation : Relation)
  | nativeType (pfx : String) (type : String) (params : List String)
  | ignore
deriving Repr, DecidableEq

/-- The canonical emission position of the slot a call populates:
updated_at, unique, id, default, map, relation, native_type, ignore. -/
def AttrCall.slot : AttrCall → Nat
  | AttrCall.updatedAt => 0
  | AttrCall.unique _ => 1
  | AttrCall.id _ => 2
  | AttrCall.default _ => 3
  | AttrCall.map _ => 4
  | AttrCall.relation _ => 5
  | AttrCall.nativeType _ _ _ => 6
  | AttrCall.ignore => 7

/-- Perform the setter call on a field. -/
def AttrCall.apply (c : AttrCall) (f : ModelField) : ModelField :=
  match c with
  | AttrCall.updatedAt => f.setUpdatedAt
  | AttrCall.unique o => f.setUnique o
  | AttrCall.id d => f.setId d
  | AttrCall.default v => f.setDefault v
  | AttrCall.map v => f.setMap v
  | AttrCall.relation r => f.setRelation r
  | AttrCall.nativeType p t ps => f.setNativeType p t ps
  | AttrCall.ignore => f.setIgnore

/-- The text the call's attribute renders as. -/
def AttrCall.rendered : AttrCall → String
  | AttrCall.updatedAt => updatedAtAttribute.render
  | AttrCall.unique o => (uniqueAttribute o).render
  | AttrCall.id d => d.render
  | AttrCall.default v => v.render
  | AttrCall.map v => (mapAttribute v).render
  | AttrCall.relation r => r.render
  | AttrCall.nativeType p t ps => (nativeTypeAttribute p t ps).render
  | AttrCall.ignore => ignoreAttribute.render

/-- Perform a whole sequence of setter calls, left to right. -/
def applyCalls (f : ModelField) (calls : List AttrCall) : ModelField :=
  calls.foldl (fun f c => c.apply f) f

/-- The rendered content of one numbered attribute slot of a field. -/
def slotRender (f : ModelField) : Nat → Option String
  | 0 => f.updated_at.map FieldAttribute.render
  | 1 => f.unique.map FieldAttribute.render
  | 2 => f.id.map IdFieldDefinition.render
  | 3 => f.default.map DefaultValue.render
  | 4 => f.map.map FieldAttribute.render
  | 5 => f.relation.map Relation.render
  | 6 => f.native_type.map FieldAttribute.render
  | 7 => f.ignore.map FieldAttribute.render
  | _ => none

/-- The fixed canonical slot sequence. -/
def canonicalSlots : List Nat := [0, 1, 2, 3, 4, 5, 6, 7]

/-- The stored documentation lines of a model field. -/
def ModelField.docLines (f : ModelField) : List String :=
  f.documentation.elim [] Documentation.lines

/-- The stored documentation lines of a composite-type field. -/
def CompositeTypeField.docLines (f : CompositeTypeField) : List String :=
  f.documentation.elim [] Documentation.lines

/-! ### Substring occurrence -/

/-- Occurrence predicate `StrSub needle hay`: the needle occurs contiguously inside the hay. -/
def StrSub (needle hay : String) : Prop := ∃ l r, hay = l ++ needle ++ r

theorem strSub_refl (s : String) : StrSub s s :=
  ⟨"", "", by rw [String.empty_append, String.append_empty]⟩

theorem strSub_appendR (n h t : String) : StrSub n h → StrSub n (h ++ t)
  | ⟨l, r, hh⟩ => ⟨l, r ++ t, by rw [hh]; simp only [String.append_assoc]⟩

theorem strSub_appendL (n h t : String) : StrSub n t → StrSub n (h ++ t)
  | ⟨l, r, hh⟩ => ⟨h ++ l, r, by rw [hh]; simp only [String.append_assoc]⟩

theorem strSub_concatAll_mem (a : String) (l : List String) (h : a ∈ l) :
    StrSub a (concatAll l) := by
  induction l with
  | nil => cases h
  | cons x xs ih =>
    rcases List.mem_cons.mp h with rfl | hm
    · exact strSub_appendR a a (concatAll xs) (strSub_refl a)
    · exact strSub_appendL a x (concatAll xs) (ih hm)

/-- Every rendered attribute of a model field occurs, preceded by its single
separating space, inside the field's render. -/
theorem strSub_attr (f : ModelField) (a : String) (h : a ∈ f.attrStrings) :
    StrSub (" " ++ a) f.render := by
  have h1 : StrSub (" " ++ a) (concatAll (f.attrStrings.map (fun x => " " ++ x))) :=
    strSub_concatAll_mem _ _ (List.mem_map_of_mem _ h)
  exact strSub_appendL _ _ _ (strSub_appendL _ _ _ h1)

/-- The documentation render of a model field occurs at the front of the
field's render. -/
theorem strSub_docs (f : ModelField) (d : Documentation)
    (h : f.documentation = some d) : StrSub d.render f.render := by
  have : f.docText = d.render := by unfold ModelField.docText; rw [h]
  unfold ModelField.render
  rw [this]
  exact strSub_appendR _ _ _ (strSub_appendR _ _ _ (strSub_refl _))

/-! Per-step characterizations of the adapter's conditional setter calls:
each step only overwrites its own slot, leaving every other slot of the
intermediate field untouched. -/

theorem boolStep_unsupported (b : Bool) (f : ModelField) :
    boolStep b ModelField.unsupported f =
      { f with type := if b then f.type.into_unsupported else f.type } := by
  cases b <;> rfl

theorem optStep_addDocumentation (o : Option String) (f : ModelField) :
    optStep o (fun docs f => f.addDocumentation docs) f =
      { f with documentation :=
          o.elim f.documentation (fun d =>
            some (f.documentation.elim (Documentation.new d) (fun dd => dd.push d))) } := by
  cases o with
  | none => rfl
  | some d =>
    show f.addDocumentation d = _
    unfold ModelField.addDocumentation
    cases hd : f.documentation <;> rfl

theorem optStep_setDefault (o : Option String) (f : ModelField) :
    optStep o (fun dv f => f.setDefault (DefaultValue.from_dml dv)) f =
      { f with default := o.elim f.default (fun dv => some (DefaultValue.from_dml dv)) } := by
  cases o <;> rfl

theorem optStep_setNativeType (dsn : String) (o : Option (String × List String))
    (f : ModelField) :
    optStep o (fun p f => f.setNativeType dsn p.1 p.2) f =
      { f with native_type :=
          o.elim f.native_type (fun p => some (nativeTypeAttribute dsn p.1 p.2)) } := by
  cases o <;> rfl

theorem boolStep_setUpdatedAt (b : Bool) (f : ModelField) :
    boolStep b ModelField.setUpdatedAt f =
      { f with updated_at := if b then some updatedAtAttribute else f.updated_at } := by
  cases b <;> rfl

theorem optStep_setUnique (o : Option IndexFieldOptions) (f : ModelField) :
    optStep o (fun unique f => f.setUnique unique) f =
      { f with unique := o.elim f.unique (fun u => some (uniqueAttribute u)) } := by
  cases o <;> rfl

theorem boolStep_setIgnore (b : Bool) (f : ModelField) :
    boolStep b ModelField.setIgnore f =
      { f with ignore := if b then some ignoreAttribute else f.ignore } := by
  cases b <;> rfl

theorem boolStep_setCommentedOut (b : Bool) (f : ModelField) :
    boolStep b ModelField.setCommentedOut f =
      { f with commented_out := if b then true else f.commented_out } := by
  cases b <;> rfl

theorem optStep_setMap (o : Option String) (f : ModelField) :
    optStep o (fun map f => f.setMap map) f =
      { f with map := o.elim f.map (fun m => some (mapAttribute m)) } := by
  cases o <;> rfl

theorem optStep_setId (o : Option IdFieldDefinition) (f : ModelField) :
    optStep o (fun idDef f => f.setId idDef) f =
      { f with id := o.elim f.id (fun i => some i) } := by
  cases o <;> rfl

theorem optStep_setOnDelete (o : Option String) (r : Relation) :
    optStep o (fun action r => r.setOnDelete action) r =
      { r with on_delete := o.elim r.on_delete (fun a => some a) } := by
  cases o <;> rfl

theorem optStep_setOnUpdate (o : Option String) (r : Relation) :
    optStep o (fun action r => r.setOnUpdate action) r =
      { r with on_update := o.elim r.on_update (fun a => some a) } := by
  cases o <;> rfl

theorem optStep_relSetMap (o : Option String) (r : Relation) :
    optStep o (fun map r => r.setMap map) r =
      { r with map := o.elim r.map (fun m => some m) } := by
  cases o <;> rfl

theorem elim_none_map (o : Option α) (g : α → β) :
    o.elim (none : Option β) (fun x => some (g x)) = o.map g := by
  cases o <;> rfl

theorem elim_none_self (o : Option α) :
    o.elim (none : Option α) (fun x => some x) = o := by
  cases o <;> rfl

/-- Master characterization of the scalar branch of `ModelField::from_dml`:
every slot of the produced field as a function of the legacy record and the
side inputs. -/
theorem from_dml_scalar (ds : Datasource) (m : DmlModel) (sf : ScalarField)
    (uniques : List (String × IndexFieldOptions)) (idd : Option IdFieldDefinition) :
    ModelField.from_dml ds m (DmlField.scalarField sf) uniques idd =
      { name := sf.name
        commented_out := sf.is_commented_out
        type := ⟨sf.field_type.baseName, sf.arity.toArity, sf.field_type.is_unsupported⟩
        documentation := sf.documentation.map Documentation.new
        updated_at := if sf.is_updated_at then some updatedAtAttribute else none
        unique := (uniques.lookup sf.name).map uniqueAttribute
        id := idd
        default := sf.default_value.map DefaultValue.from_dml
        map := sf.database_name.map mapAttribute
        relation := none
        native_type :=
          sf.field_type.nativePayload.map (fun p => nativeTypeAttribute ds.name p.1 p.2)
        ignore := if sf.is_ignored then some ignoreAttribute else none } := by
  obtain ⟨n, ft, ar, docs, dv, upd, ign, comm, dbn⟩ := sf
  rcases ft with ct | info | s | ⟨st, nt⟩ | ct <;> cases ar <;>
    simp [ModelField.from_dml, DmlFieldType.baseName, DmlFieldType.nativePayload,
      DmlFieldType.is_unsupported, boolStep_unsupported, optStep_addDocumentation,
      optStep_setDefault, optStep_setNativeType, boolStep_setUpdatedAt,
      optStep_setUnique, boolStep_setIgnore, boolStep_setCommentedOut,
      optStep_setMap, optStep_setId, elim_none_map, elim_none_self,
      ModelField.new, ModelField.optional, ModelField.array,
      FieldType.required, FieldType.into_optional, FieldType.into_array,
      FieldType.into_unsupported, FieldArity.toArity]

/-- Master characterization of the relation branch of `ModelField::from_dml`. -/
theorem from_dml_relation (ds : Datasource) (m : DmlModel) (rf : RelationField)
    (uniques : List (String × IndexFieldOptions)) (idd : Option IdFieldDefinition) :
    ModelField.from_dml ds m (DmlField.relationField rf) uniques idd =
      { name := rf.name
        commented_out := false
        type := ⟨rf.relation_info.referenced_model, rf.arity.toArity, false⟩
        documentation := rf.documentation.map Documentation.new
        updated_at := none
        unique := none
        id := none
        default := none
        map := none
        relation :=
          if !rf.relation_info.name.isEmpty ||
             (!rf.relation_info.fields.isEmpty || !rf.relation_info.references.isEmpty)
          then some (relationFromInfo rf.relation_info) else none
        native_type := none
        ignore := if rf.is_ignored then some ignoreAttribute else none } := by
  obtain ⟨n, ar, docs, ign, ⟨rn, refm, flds, refs, od, ou, fkn⟩, nt, dv, dbn, comm⟩ := rf
  cases hrn : rn.isEmpty <;> cases flds <;> cases refs <;> cases ar <;>
    simp [ModelField.from_dml, relationFromInfo, hrn, optStep_addDocumentation,
      boolStep_setIgnore, optStep_setOnDelete, optStep_setOnUpdate, optStep_relSetMap,
      elim_none_map, elim_none_self,
      ModelField.new, ModelField.optional, ModelField.array, ModelField.setRelation,
      Relation.new, Relation.setName, Relation.setFields, Relation.setReferences,
      FieldType.required, FieldType.into_optional, FieldType.into_array,
      FieldArity.toArity]

/-- Master characterization of the composite branch of `ModelField::from_dml`. -/
theorem from_dml_composite (ds : Datasource) (m : DmlModel) (cf : CompositeField)
    (uniques : List (String × IndexFieldOptions)) (idd : Option IdFieldDefinition) :
    ModelField.from_dml ds m (DmlField.compositeField cf) uniques idd =
      { name := cf.name
        commented_out := cf.is_commented_out
        type := ⟨cf.composite_type, cf.arity.toArity, false⟩
        documentation := cf.documentation.map Documentation.new
        updated_at := none
        unique := none
        id := none
        default := cf.default_value.map DefaultValue.from_dml
        map := cf.database_name.map mapAttribute
        relation := none
        native_type := none
        ignore := if cf.is_ignored then some ignoreAttribute else none } := by
  obtain ⟨n, ctn, ar, docs, dbn, comm, ign, dv, nt⟩ := cf
  cases ar <;>
    simp [ModelField.from_dml, optStep_addDocumentation, optStep_setMap,
      boolStep_setCommentedOut, boolStep_setIgnore, optStep_setDefault,
      elim_none_map, elim_none_self,
      ModelField.new, ModelField.optional, ModelField.array,
      FieldType.required, FieldType.into_optional, FieldType.into_array,
      FieldType.into_unsupported, FieldArity.toArity]

/-! ### Order-independence of attribute emission -/

theorem slotRender_apply_self (c : AttrCall) (f : ModelField) :
    slotRender (c.apply f) c.slot = some c.rendered := by
  cases c <;> rfl

theorem slotRender_apply_other (c : AttrCall) (f : ModelField) (i : Nat)
    (h : c.slot ≠ i) : slotRender (c.apply f) i = slotRender f i := by
  cases c <;> rcases i with _ | _ | _ | _ | _ | _ | _ | _ | i <;>
    first
    | rfl
    | exact absurd rfl h

theorem slotRender_new (n t : String) (i : Nat) :
    slotRender (ModelField.new n t) i = none := by
  rcases i with _ | _ | _ | _ | _ | _ | _ | _ | i <;> rfl

theorem attrCall_meta (c : AttrCall) (f : ModelField) :
    (c.apply f).name = f.name ∧ (c.apply f).commented_out = f.commented_out ∧
    (c.apply f).type = f.type ∧ (c.apply f).documentation = f.documentation := by
  cases c <;> exact ⟨rfl, rfl, rfl, rfl⟩

theorem applyCalls_meta (calls : List AttrCall) (f : ModelField) :
    (applyCalls f calls).name = f.name ∧
    (applyCalls f calls).commented_out = f.commented_out ∧
    (applyCalls f calls).type = f.type ∧
    (applyCalls f calls).documentation = f.documentation := by
  induction calls generalizing f with
  | nil => exact ⟨rfl, rfl, rfl, rfl⟩
  | cons c rest ih =>
    have h1 := attrCall_meta c f
    have h2 := ih (c.apply f)
    exact ⟨h2.1.trans h1.1, h2.2.1.trans h1.2.1, h2.2.2.1.trans h1.2.2.1,
      h2.2.2.2.trans h1.2.2.2⟩

theorem slotRender_applyCalls (calls : List AttrCall) (f : ModelField) (i : Nat)
    (h : (calls.map AttrCall.slot).Nodup) :
    slotRender (applyCalls f calls) i =
      (calls.find? (fun c => c.slot == i)).elim (slotRender f i)
        (fun c => some c.rendered) := by
  induction calls generalizing f with
  | nil => rfl
  | cons c rest ih =>
    rw [List.map_cons, List.nodup_cons] at h
    obtain ⟨hcm, hn⟩ := h
    show slotRender (applyCalls (c.apply f) rest) i = _
    by_cases hci : c.slot = i
    · have hfind : rest.find? (fun c' => c'.slot == i) = none := by
        apply List.find?_eq_none.mpr
        intro x hx hpx
        exact hcm (by
          rw [hci, ← beq_iff_eq.mp hpx]
          exact List.mem_map_of_mem _ hx)
      rw [ih (c.apply f) hn, hfind, List.find?_cons_of_pos _ (by simp [hci])]
      simp only [Option.elim]
      rw [← hci]
      exact slotRender_apply_self c f
    · rw [ih (c.apply f) hn, List.find?_cons_of_neg _ (by simp [hci])]
      cases hr : rest.find? (fun c' => c'.slot == i) with
      | some c' => rfl
      | none => simp only [Option.elim]; exact slotRender_apply_other c f i hci

theorem filterMap_cons_toList (g : Nat → Option String) (a : Nat) (l : List Nat) :
    (a :: l).filterMap g = (g a).toList ++ l.filterMap g := by
  cases h : g a <;> simp [List.filterMap_cons, h]

theorem attrStrings_eq_slots (f : ModelField) :
    f.attrStrings = canonicalSlots.filterMap (slotRender f) := by
  simp only [canonicalSlots, filterMap_cons_toList, List.filterMap_nil,
    List.append_nil, slotRender, ModelField.attrStrings, List.append_assoc]

theorem find?_slot_perm (l l' : List AttrCall)
    (hp : l.Perm l') (hnd : (l.map AttrCall.slot).Nodup) (i : Nat) :
    l.find? (fun c => c.slot == i) = l'.find? (fun c => c.slot == i) := by
  cases hf : l.find? (fun c => c.slot == i) with
  | none =>
    cases hf' : l'.find? (fun c => c.slot == i) with
    | none => rfl
    | some c =>
      exact absurd (List.find?_some hf')
        (List.find?_eq_none.mp hf c (hp.mem_iff.mpr (List.mem_of_find?_eq_some hf')))
  | some c =>
    have hm : c ∈ l := List.mem_of_find?_eq_some hf
    have hpc := List.find?_some hf
    cases hf' : l'.find? (fun c => c.slot == i) with
    | none =>
      exact absurd hpc (List.find?_eq_none.mp hf' c (hp.mem_iff.mp hm))
    | some c' =>
      have hm' : c' ∈ l := hp.mem_iff.mpr (List.mem_of_find?_eq_some hf')
      have hpc' := List.find?_some hf'
      have : c = c' :=
        List.inj_on_of_nodup_map hnd hm hm'
          (by rw [beq_iff_eq.mp hpc, beq_iff_eq.mp hpc'])
      rw [this]

theorem render_eq_of_components (f g : ModelField)
    (h1 : f.name = g.name) (h2 : f.commented_out = g.commented_out)
    (h3 : f.type = g.type) (h4 : f.documentation = g.documentation)
    (h5 : f.attrStrings = g.attrStrings) : f.render = g.render := by
  unfold ModelField.render ModelField.declText ModelField.docText
  rw [h1, h2, h3, h4, h5]

/-! ### Claim theorems -/

theorem relCond_iff (rn : String) (flds refs : List String) :
    (!rn.isEmpty || (!flds.isEmpty || !refs.isEmpty)) = true
      ↔ (rn ≠ "" ∨ flds ≠ [] ∨ refs ≠ []) := by
  simp [Bool.eq_false_iff, String.isEmpty_iff, List.isEmpty_iff]

/-- Claim C2: for every legacy relation field processed by the adapter, a
relation attribute is attached to the produced model field if and only if
the legacy relation name is non-empty or the local-field list is non-empty
or the referenced-field list is non-empty; when the name and both lists are
empty, no relation attribute is attached at all. -/
theorem C2_empty_relation_suppression (ds : Datasource) (m : DmlModel)
    (rf : RelationField) (uniques : List (String × IndexFieldOptions))
    (idd : Option IdFieldDefinition) :
    (ModelField.from_dml ds m (DmlField.relationField rf) uniques idd).relation ≠ none
      ↔ (rf.relation_info.name ≠ "" ∨ rf.relation_info.fields ≠ []
          ∨ rf.relation_info.references ≠ []) := by
  rw [from_dml_relation]
  by_cases hP : (rf.relation_info.name ≠ "" ∨ rf.relation_info.fields ≠ []
      ∨ rf.relation_info.references ≠ [])
  · have hc := (relCond_iff rf.relation_info.name rf.relation_info.fields
      rf.relation_info.references).mpr hP
    simp [hc, hP]
  · have hc : (!rf.relation_info.name.isEmpty ||
        (!rf.relation_info.fields.isEmpty || !rf.relation_info.references.isEmpty)) = false := by
      rw [Bool.eq_false_iff]
      intro htrue
      exact hP ((relCond_iff _ _ _).mp htrue)
    simp [hc, hP]

theorem pushAll_spec (fs : List CompositeTypeField) (ct : CompositeType) :
    (ct.pushAll fs).fields = ct.fields ++ fs
    ∧ (ct.pushAll fs).name = ct.name
    ∧ (ct.pushAll fs).documentation = ct.documentation := by
  induction fs generalizing ct with
  | nil => exact ⟨(List.append_nil _).symm, rfl, rfl⟩
  | cons f fs ih =>
    have h := ih (ct.push_field f)
    refine ⟨?_, h.2.1, h.2.2⟩
    rw [show CompositeType.pushAll ct (f :: fs) = (ct.push_field f).pushAll fs from rfl,
      h.1]
    simp [CompositeType.push_field]

theorem renderFields_eq (fs : List CompositeTypeField) :
    renderFields fs = concatAll (fs.map (fun f => f.render ++ "\n")) := by
  induction fs with
  | nil => rfl
  | cons f fs ih => simp [renderFields, concatAll, ih, String.append_assoc]

/-- Claim C5: for every type block, rendering emits the optional
documentation lines, then the literal `type <Name> \x7b` header on its own
line, then each pushed field's render on its own line in exact insertion
order, then a closing `\x7d` with a trailing newline, matching the literal
shape `type <Name> \x7b\n<fields>\n\x7d\n`. -/
theorem C5_type_block_shape (name : String) (docs : Option String)
    (fs : List CompositeTypeField) :
    ((optStep docs (fun d ct => ct.setDocumentation d) (CompositeType.new name)).pushAll
        fs).fields = fs
    ∧ ((optStep docs (fun d ct => ct.setDocumentation d) (CompositeType.new name)).pushAll
        fs).render
      = docs.elim "" (fun d => (Documentation.new d).render)
        ++ ("type " ++ name ++ " \x7b\n")
        ++ concatAll (fs.map (fun f => f.render ++ "\n")) ++ "\x7d\n" := by
  obtain ⟨hf, hn, hd⟩ := pushAll_spec fs
    (optStep docs (fun d ct => ct.setDocumentation d) (CompositeType.new name))
  constructor
  · rw [hf]
    cases docs <;>
      simp [optStep, CompositeType.new, CompositeType.setDocumentation]
  · unfold CompositeType.render CompositeType.docText
    rw [hf, hn, hd]
    cases docs <;>
      simp [optStep, CompositeType.new, CompositeType.setDocumentation,
        renderFields_eq, String.empty_append]

/-- Claim C7: for every field declaration (model or composite-type variant),
calling the documentation setter a second time appends the new text as an
additional line rather than replacing the previously stored documentation. -/
theorem C7_documentation_appends (f : ModelField) (g : CompositeTypeField)
    (a b : String) :
    ((f.addDocumentation a).addDocumentation b).docLines = f.docLines ++ [a, b]
    ∧ ((g.addDocumentation a).addDocumentation b).docLines = g.docLines ++ [a, b] := by
  constructor
  · unfold ModelField.docLines ModelField.addDocumentation
    cases hd : f.documentation <;> simp [Documentation.push, Documentation.new]
  · unfold CompositeTypeField.docLines CompositeTypeField.addDocumentation
    cases hd : g.documentation <;> simp [Documentation.push, Documentation.new]

/-- Claim C8: for every field type, arity is last-write-wins — calling the
optional setter then the array setter (or the reverse) on one field yields a
render with exactly one arity suffix, the one of the last call (`[]` after
optional-then-array, `?` after array-then-optional), never both suffixes. -/
theorem C8_arity_last_write_wins (f : ModelField) (t : FieldType) :
    (f.optional.array).type.render = f.type.renderBase ++ "[]"
    ∧ (f.array.optional).type.render = f.type.renderBase ++ "?"
    ∧ (f.optional.array).type.arity = Arity.list
    ∧ (f.array.optional).type.arity = Arity.optional
    ∧ t.into_optional.into_array = { t with arity := Arity.list }
    ∧ t.into_array.into_optional = { t with arity := Arity.optional } := by
    refine ⟨?_, ?_, rfl, rfl, rfl, rfl⟩ <;>
      simp [ModelField.optional, ModelField.array, FieldType.into_optional,
        FieldType.into_array, FieldType.render, FieldType.renderBase, Arity.suffix]

/-- Claim C9: the identity definition and uniques side-table passed to the
adapter are attached only for scalar-kind legacy fields; for relation-kind
and composite-kind legacy fields the id and unique slots stay empty even
when the caller supplies them. -/
theorem C9_side_inputs_scalar_only (ds : Datasource) (m : DmlModel)
    (sf : ScalarField) (rf : RelationField) (cf : CompositeField)
    (uniques : List (String × IndexFieldOptions)) (idd : Option IdFieldDefinition) :
    (ModelField.from_dml ds m (DmlField.relationField rf) uniques idd).id = none
    ∧ (ModelField.from_dml ds m (DmlField.relationField rf) uniques idd).unique = none
    ∧ (ModelField.from_dml ds m (DmlField.compositeField cf) uniques idd).id = none
    ∧ (ModelField.from_dml ds m (DmlField.compositeField cf) uniques idd).unique = none
    ∧ (ModelField.from_dml ds m (DmlField.scalarField sf) uniques idd).id = idd
    ∧ (ModelField.from_dml ds m (DmlField.scalarField sf) uniques idd).unique
        = (uniques.lookup sf.name).map uniqueAttribute := by
  refine ⟨?_, ?_, ?_, ?_, ?_, ?_⟩ <;>
    simp [from_dml_relation, from_dml_composite, from_dml_scalar]

/-- Claim C10: rendering a type block to which no field was ever pushed is
total and succeeds, producing exactly the header line and the closing brace
(`type <Name> \x7b\n\x7d\n`); no error or validation occurs at render time. -/
theorem C10_empty_block_renders (name : String) :
    (CompositeType.new name).render = "type " ++ name ++ " \x7b\n\x7d\n" := by
  unfold CompositeType.render CompositeType.docText CompositeType.new renderFields
  simp [String.empty_append, String.append_empty, String.append_assoc]

/-- Claim C1: for every model field, whichever subset of the eight optional
attribute slots is populated and in whatever order the setters were called,
rendering emits the populated attributes in the fixed sequence
auto-update-timestamp, unique, id, default, rename, relation, native-type,
ignore — each preceded by exactly one space, with absent slots skipped and
no extra separators. -/
theorem C1_attribute_order (n t : String) (calls calls' : List AttrCall)
    (hnd : (calls.map AttrCall.slot).Nodup) (hp : calls.Perm calls') :
    (applyCalls (ModelField.new n t) calls').render
        = (applyCalls (ModelField.new n t) calls).render
    ∧ (applyCalls (ModelField.new n t) calls).attrStrings
        = canonicalSlots.filterMap
            (fun i => (calls.find? (fun c => c.slot == i)).map AttrCall.rendered)
    ∧ (applyCalls (ModelField.new n t) calls).render
        = n ++ " " ++ t
          ++ concatAll ((applyCalls (ModelField.new n t) calls).attrStrings.map
              (fun a => " " ++ a)) := by
  have hnd' : (calls'.map AttrCall.slot).Nodup := (hp.map AttrCall.slot).nodup_iff.mp hnd
  have hslots : ∀ (cs : List AttrCall), (cs.map AttrCall.slot).Nodup →
      (applyCalls (ModelField.new n t) cs).attrStrings
        = canonicalSlots.filterMap
            (fun i => (cs.find? (fun c => c.slot == i)).map AttrCall.rendered) := by
    intro cs hcs
    rw [attrStrings_eq_slots]
    have hfun : slotRender (applyCalls (ModelField.new n t) cs)
        = fun i => (cs.find? (fun c => c.slot == i)).map AttrCall.rendered := by
      funext i
      rw [slotRender_applyCalls cs (ModelField.new n t) i hcs, slotRender_new]
      cases cs.find? (fun c => c.slot == i) <;> rfl
    rw [hfun]
  have hmeta := applyCalls_meta calls (ModelField.new n t)
  have hmeta' := applyCalls_meta calls' (ModelField.new n t)
  refine ⟨?_, hslots calls hnd, ?_⟩
  · apply render_eq_of_components
    · rw [hmeta'.1, hmeta.1]
    · rw [hmeta'.2.1, hmeta.2.1]
    · rw [hmeta'.2.2.1, hmeta.2.2.1]
    · rw [hmeta'.2.2.2, hmeta.2.2.2]
    · rw [hslots calls' hnd', hslots calls hnd]
      have hfind : ∀ i, calls'.find? (fun c => c.slot == i)
          = calls.find? (fun c => c.slot == i) :=
        fun i => (find?_slot_perm calls calls' hp hnd i).symm
      simp only [hfind]
  · unfold ModelField.render ModelField.declText ModelField.docText
    rw [hmeta.1, hmeta.2.1, hmeta.2.2.1, hmeta.2.2.2]
    simp [ModelField.new, FieldType.required, FieldType.render, FieldType.renderBase,
      Arity.suffix, String.empty_append, String.append_empty, String.append_assoc]

/-- Witness for C1 at a concrete pair of permuted call sequences. -/
theorem C1_attribute_order_witness :
    (applyCalls (ModelField.new "street" "String")
        [AttrCall.updatedAt, AttrCall.ignore]).render
      = (applyCalls (ModelField.new "street" "String")
        [AttrCall.ignore, AttrCall.updatedAt]).render
    ∧ (applyCalls (ModelField.new "street" "String")
        [AttrCall.ignore, AttrCall.updatedAt]).attrStrings
      = canonicalSlots.filterMap
          (fun i => (([AttrCall.ignore, AttrCall.updatedAt].find?
              (fun c => c.slot == i))).map AttrCall.rendered)
    ∧ (applyCalls (ModelField.new "street" "String")
        [AttrCall.ignore, AttrCall.updatedAt]).render
      = "street" ++ " " ++ "String"
        ++ concatAll ((applyCalls (ModelField.new "street" "String")
            [AttrCall.ignore, AttrCall.updatedAt]).attrStrings.map (fun a => " " ++ a)) :=
  C1_attribute_order "street" "String" [AttrCall.ignore, AttrCall.updatedAt]
    [AttrCall.updatedAt, AttrCall.ignore] (by decide) (by decide)

/-- Claim C4: for every model field marked commented-out, the rendered
declaration line is exactly the comment marker prefix followed by the same
declaration text the field would render when not commented out; every
populated attribute, the name and the type still render, and documentation
lines still precede the marker. -/
theorem C4_comment_transparency (f : ModelField) (h : f.commented_out = false) :
    ∃ decl,
      f.render = f.docText ++ decl
      ∧ f.setCommentedOut.render = f.docText ++ ("// " ++ decl)
      ∧ decl = f.name ++ " " ++ f.type.render
          ++ concatAll (f.attrStrings.map (fun a => " " ++ a))
      ∧ f.setCommentedOut.attrStrings = f.attrStrings
      ∧ f.setCommentedOut.docText = f.docText := by
  refine ⟨f.declText, ?_, ?_, rfl, rfl, rfl⟩
  · unfold ModelField.render
    rw [h]
    simp [String.append_empty]
  · unfold ModelField.render
    rw [show f.setCommentedOut.docText = f.docText from rfl,
      show f.setCommentedOut.declText = f.declText from rfl,
      show f.setCommentedOut.commented_out = true from rfl]
    simp [String.append_assoc]

/-- Witness for C4 at a concrete documented, renamed field. -/
theorem C4_comment_transparency_witness :
    ∃ decl,
      (((ModelField.new "street" "String").addDocumentation "docs").setMap
          "Strasse").render
        = (((ModelField.new "street" "String").addDocumentation "docs").setMap
            "Strasse").docText ++ decl
      ∧ (((ModelField.new "street" "String").addDocumentation "docs").setMap
            "Strasse").setCommentedOut.render
        = (((ModelField.new "street" "String").addDocumentation "docs").setMap
            "Strasse").docText ++ ("// " ++ decl)
      ∧ decl = (((ModelField.new "street" "String").addDocumentation "docs").setMap
            "Strasse").name ++ " "
          ++ (((ModelField.new "street" "String").addDocumentation "docs").setMap
              "Strasse").type.render
          ++ concatAll ((((ModelField.new "street" "String").addDocumentation
              "docs").setMap "Strasse").attrStrings.map (fun a => " " ++ a))
      ∧ (((ModelField.new "street" "String").addDocumentation "docs").setMap
            "Strasse").setCommentedOut.attrStrings
        = (((ModelField.new "street" "String").addDocumentation "docs").setMap
            "Strasse").attrStrings
      ∧ (((ModelField.new "street" "String").addDocumentation "docs").setMap
            "Strasse").setCommentedOut.docText
        = (((ModelField.new "street" "String").addDocumentation "docs").setMap
            "Strasse").docText :=
  C4_comment_transparency
    (((ModelField.new "street" "String").addDocumentation "docs").setMap "Strasse") rfl

/-- Claim C6 (amended to scalar-kind legacy fields): for every legacy
scalar-kind model field processed by the adapter with a uniques side-table,
if the field's name is a key in the uniques table then the produced field
carries exactly the `@unique(...)` attribute built from the supplied options
(arguments map, sort, length, clustered, each present iff supplied) and that
attribute occurs in the rendered text; if the name is absent, no unique
attribute is attached. -/
theorem C6_unique_side_table_scalar (ds : Datasource) (m : DmlModel)
    (sf : ScalarField) (uniques : List (String × IndexFieldOptions))
    (idd : Option IdFieldDefinition) :
    (ModelField.from_dml ds m (DmlField.scalarField sf) uniques idd).unique
        = (uniques.lookup sf.name).map uniqueAttribute
    ∧ (∀ opts, uniques.lookup sf.name = some opts →
        StrSub (" " ++ (uniqueAttribute opts).render)
          (ModelField.from_dml ds m (DmlField.scalarField sf) uniques idd).render) := by
  constructor
  · simp [from_dml_scalar]
  · intro opts hl
    apply strSub_attr
    rw [from_dml_scalar]
    simp [ModelField.attrStrings, hl]

/-- Counterexample to claim C6 as stated over every legacy model field: a
relation-kind legacy field whose name is a key in the uniques side-table is
produced with no unique attribute at all (its whole attribute list is
empty). -/
theorem C6_counterexample :
    (ModelField.from_dml ⟨"db"⟩ ⟨"M"⟩
        (DmlField.relationField
          ⟨"street", FieldArity.required, none, false,
            ⟨"", "Street", [], [], none, none, none⟩, none, none, none, false⟩)
        [("street", ⟨none, some "Asc", none, none⟩)] none).unique = none
    ∧ (ModelField.from_dml ⟨"db"⟩ ⟨"M"⟩
        (DmlField.relationField
          ⟨"street", FieldArity.required, none, false,
            ⟨"", "Street", [], [], none, none, none⟩, none, none, none, false⟩)
        [("street", ⟨none, some "Asc", none, none⟩)] none).attrStrings = [] :=
  ⟨rfl, rfl⟩

/-- Witness for C6 at a concrete scalar field found in the side-table. -/
theorem C6_unique_side_table_scalar_witness :
    StrSub (" " ++ (uniqueAttribute ⟨some "idx", some "Asc", some 11, some true⟩).render)
      ((ModelField.from_dml ⟨"db"⟩ ⟨"M"⟩
        (DmlField.scalarField
          ⟨"street", DmlFieldType.scalar "String" none, FieldArity.required,
            none, none, false, false, false, none⟩)
        [("street", ⟨some "idx", some "Asc", some 11, some true⟩)] none).render) :=
  (C6_unique_side_table_scalar ⟨"db"⟩ ⟨"M"⟩
    ⟨"street", DmlFieldType.scalar "String" none, FieldArity.required,
      none, none, false, false, false, none⟩
    [("street", ⟨some "idx", some "Asc", some 11, some true⟩)] none).2
    ⟨some "idx", some "Asc", some 11, some true⟩ rfl

/-- Claim C3 (amended): for scalar-kind legacy records every present
optional legacy property (documentation, default, native type, updatedAt,
ignore, rename, commented-out flag, arity) is translated into the
corresponding slot and appears in the rendered text; for relation-kind
records documentation, the ignored flag and the arity are translated, while
the rename, default value, native type and commented-out flag carried by the
legacy record are not read by the adapter; for composite-kind records every
present optional property except the native-type descriptor is translated. -/
theorem C3_adapter_exhaustiveness (ds : Datasource) (m : DmlModel)
    (sf : ScalarField) (rf : RelationField) (cf : CompositeField)
    (uniques : List (String × IndexFieldOptions)) (idd : Option IdFieldDefinition) :
    (∀ d, sf.documentation = some d →
      StrSub (Documentation.new d).render
        (ModelField.from_dml ds m (DmlField.scalarField sf) uniques idd).render)
    ∧ (∀ dv, sf.default_value = some dv →
      StrSub (" " ++ (DefaultValue.from_dml dv).render)
        (ModelField.from_dml ds m (DmlField.scalarField sf) uniques idd).render)
    ∧ (∀ st nt, sf.field_type = DmlFieldType.scalar st (some nt) →
      StrSub (" " ++ (nativeTypeAttribute ds.name nt.name nt.args).render)
        (ModelField.from_dml ds m (DmlField.scalarField sf) uniques idd).render)
    ∧ (sf.is_updated_at = true →
      StrSub (" " ++ updatedAtAttribute.render)
        (ModelField.from_dml ds m (DmlField.scalarField sf) uniques idd).render)
    ∧ (sf.is_ignored = true →
      StrSub (" " ++ ignoreAttribute.render)
        (ModelField.from_dml ds m (DmlField.scalarField sf) uniques idd).render)
    ∧ (∀ mn, sf.database_name = some mn →
      StrSub (" " ++ (mapAttribute mn).render)
        (ModelField.from_dml ds m (DmlField.scalarField sf) uniques idd).render)
    ∧ (ModelField.from_dml ds m (DmlField.scalarField sf) uniques idd).commented_out
        = sf.is_commented_out
    ∧ (ModelField.from_dml ds m (DmlField.scalarField sf) uniques idd).type.arity
        = sf.arity.toArity
    ∧ (∀ d, rf.documentation = some d →
      StrSub (Documentation.new d).render
        (ModelField.from_dml ds m (DmlField.relationField rf) uniques idd).render)
    ∧ (rf.is_ignored = true →
      StrSub (" " ++ ignoreAttribute.render)
        (ModelField.from_dml ds m (DmlField.relationField rf) uniques idd).render)
    ∧ (ModelField.from_dml ds m (DmlField.relationField rf) uniques idd).type.arity
        = rf.arity.toArity
    ∧ (ModelField.from_dml ds m (DmlField.relationField rf) uniques idd).map = none
    ∧ (ModelField.from_dml ds m (DmlField.relationField rf) uniques idd).default = none
    ∧ (ModelField.from_dml ds m (DmlField.relationField rf) uniques idd).native_type
        = none
    ∧ (ModelField.from_dml ds m (DmlField.relationField rf) uniques idd).commented_out
        = false
    ∧ (∀ d, cf.documentation = some d →
      StrSub (Documentation.new d).render
        (ModelField.from_dml ds m (DmlField.compositeField cf) uniques idd).render)
    ∧ (∀ mn, cf.database_name = some mn →
      StrSub (" " ++ (mapAttribute mn).render)
        (ModelField.from_dml ds m (DmlField.compositeField cf) uniques idd).render)
    ∧ (∀ dv, cf.default_value = some dv →
      StrSub (" " ++ (DefaultValue.from_dml dv).render)
        (ModelField.from_dml ds m (DmlField.compositeField cf) uniques idd).render)
    ∧ (cf.is_ignored = true →
      StrSub (" " ++ ignoreAttribute.render)
        (ModelField.from_dml ds m (DmlField.compositeField cf) uniques idd).render)
    ∧ (ModelField.from_dml ds m (DmlField.compositeField cf) uniques idd).commented_out
        = cf.is_commented_out
    ∧ (ModelField.from_dml ds m (DmlField.compositeField cf) uniques idd).type.arity
        = cf.arity.toArity
    ∧ (ModelField.from_dml ds m (DmlField.compositeField cf) uniques idd).native_type
        = none := by
  refine ⟨?_, ?_, ?_, ?_, ?_, ?_, ?_, ?_, ?_, ?_, ?_, ?_, ?_, ?_, ?_, ?_, ?_, ?_,
    ?_, ?_, ?_, ?_⟩
  · intro d hd
    exact strSub_docs _ _ (by rw [from_dml_scalar]; simp [hd])
  · intro dv hdv
    apply strSub_attr
    rw [from_dml_scalar]
    simp [ModelField.attrStrings, hdv]
  · intro st nt hft
    apply strSub_attr
    rw [from_dml_scalar]
    simp [ModelField.attrStrings, hft, DmlFieldType.nativePayload]
  · intro hupd
    apply strSub_attr
    rw [from_dml_scalar]
    simp [ModelField.attrStrings, hupd]
  · intro hign
    apply strSub_attr
    rw [from_dml_scalar]
    simp [ModelField.attrStrings, hign]
  · intro mn hmn
    apply strSub_attr
    rw [from_dml_scalar]
    simp [ModelField.attrStrings, hmn]
  · rw [from_dml_scalar]
  · rw [from_dml_scalar]
  · intro d hd
    exact strSub_docs _ _ (by rw [from_dml_relation]; simp [hd])
  · intro hign
    apply strSub_attr
    rw [from_dml_relation]
    simp [ModelField.attrStrings, hign]
  · rw [from_dml_relation]
  · rw [from_dml_relation]
  · rw [from_dml_relation]
  · rw [from_dml_relation]
  · rw [from_dml_relation]
  · intro d hd
    exact strSub_docs _ _ (by rw [from_dml_composite]; simp [hd])
  · intro mn hmn
    apply strSub_attr
    rw [from_dml_composite]
    simp [ModelField.attrStrings, hmn]
  · intro dv hdv
    apply strSub_attr
    rw [from_dml_composite]
    simp [ModelField.attrStrings, hdv]
  · intro hign
    apply strSub_attr
    rw [from_dml_composite]
    simp [ModelField.attrStrings, hign]
  · rw [from_dml_composite]
  · rw [from_dml_composite]
  · rw [from_dml_composite]

/-- Counterexample to claim C3 as stated over every kind: a relation-kind
legacy record carrying a rename, a default value, a native type and the
commented-out flag is translated with all four dropped — the produced field
has empty rename, default and native-type slots and is not commented out. -/
theorem C3_counterexample :
    (ModelField.from_dml ⟨"db"⟩ ⟨"M"⟩
        (DmlField.relationField
          ⟨"posts", FieldArity.required, none, false,
            ⟨"", "Post", [], [], none, none, none⟩,
            some ⟨"VarChar", ["255"]⟩, some "42", some "posts_col", true⟩)
        [] none).map = none
    ∧ (ModelField.from_dml ⟨"db"⟩ ⟨"M"⟩
        (DmlField.relationField
          ⟨"posts", FieldArity.required, none, false,
            ⟨"", "Post", [], [], none, none, none⟩,
            some ⟨"VarChar", ["255"]⟩, some "42", some "posts_col", true⟩)
        [] none).default = none
    ∧ (ModelField.from_dml ⟨"db"⟩ ⟨"M"⟩
        (DmlField.relationField
          ⟨"posts", FieldArity.required, none, false,
            ⟨"", "Post", [], [], none, none, none⟩,
            some ⟨"VarChar", ["255"]⟩, some "42", some "posts_col", true⟩)
        [] none).native_type = none
    ∧ (ModelField.from_dml ⟨"db"⟩ ⟨"M"⟩
        (DmlField.relationField
          ⟨"posts", FieldArity.required, none, false,
            ⟨"", "Post", [], [], none, none, none⟩,
            some ⟨"VarChar", ["255"]⟩, some "42", some "posts_col", true⟩)
        [] none).commented_out = false :=
  ⟨rfl, rfl, rfl, rfl⟩

/-- Witness for the amended C3 at concrete records with the optional
properties populated. -/
theorem C3_adapter_exhaustiveness_witness :
    StrSub (Documentation.new "doc").render
      ((ModelField.from_dml ⟨"db"⟩ ⟨"M"⟩
        (DmlField.scalarField
          ⟨"street", DmlFieldType.scalar "String" (some ⟨"VarChar", ["255"]⟩),
            FieldArity.optional, some "doc", some "dv", true, true, true,
            some "Strasse"⟩) [] none).render)
    ∧ StrSub (" " ++ (DefaultValue.from_dml "dv").render)
      ((ModelField.from_dml ⟨"db"⟩ ⟨"M"⟩
        (DmlField.scalarField
          ⟨"street", DmlFieldType.scalar "String" (some ⟨"VarChar", ["255"]⟩),
            FieldArity.optional, some "doc", some "dv", true, true, true,
            some "Strasse"⟩) [] none).render)
    ∧ StrSub (" " ++ (nativeTypeAttribute "db" "VarChar" ["255"]).render)
      ((ModelField.from_dml ⟨"db"⟩ ⟨"M"⟩
        (DmlField.scalarField
          ⟨"street", DmlFieldType.scalar "String" (some ⟨"VarChar", ["255"]⟩),
            FieldArity.optional, some "doc", some "dv", true, true, true,
            some "Strasse"⟩) [] none).render)
    ∧ StrSub (" " ++ (mapAttribute "Strasse").render)
      ((ModelField.from_dml ⟨"db"⟩ ⟨"M"⟩
        (DmlField.scalarField
          ⟨"street", DmlFieldType.scalar "String" (some ⟨"VarChar", ["255"]⟩),
            FieldArity.optional, some "doc", some "dv", true, true, true,
            some "Strasse"⟩) [] none).render)
    ∧ StrSub (" " ++ ignoreAttribute.render)
      ((ModelField.from_dml ⟨"db"⟩ ⟨"M"⟩
        (DmlField.relationField
          ⟨"posts", FieldArity.list, some "rdoc", true,
            ⟨"PostToUser", "Post", ["id"], ["uid"], none, none, none⟩,
            none, none, none, false⟩) [] none).render)
    ∧ StrSub (" " ++ (mapAttribute "addr_col").render)
      ((ModelField.from_dml ⟨"db"⟩ ⟨"M"⟩
        (DmlField.compositeField
          ⟨"addr", "Address", FieldArity.required, some "cdoc", some "addr_col",
            false, true, some "42", none⟩) [] none).render) := by
  have h := C3_adapter_exhaustiveness ⟨"db"⟩ ⟨"M"⟩
    ⟨"street", DmlFieldType.scalar "String" (some ⟨"VarChar", ["255"]⟩),
      FieldArity.optional, some "doc", some "dv", true, true, true, some "Strasse"⟩
    ⟨"posts", FieldArity.list, some "rdoc", true,
      ⟨"PostToUser", "Post", ["id"], ["uid"], none, none, none⟩,
      none, none, none, false⟩
    ⟨"addr", "Address", FieldArity.required, some "cdoc", some "addr_col",
      false, true, some "42", none⟩
    [] none
  exact ⟨h.1 "doc" rfl, h.2.1 "dv" rfl,
    h.2.2.1 "String" ⟨"VarChar", ["255"]⟩ rfl,
    h.2.2.2.2.2.1 "Strasse" rfl,
    h.2.2.2.2.2.2.2.2.2.1 rfl,
    h.2.2.2.2.2.2.2.2.2.2.2.2.2.2.2.2.1 "addr_col" rfl⟩

end Renderer
